import Mathlib

/-!
Shallow embedding of the fraud-detection core of
`golang-fraud-detection` (files `internal/detector/fraud_detector.go`
and the auxiliary analyzers in `internal/ml/engine.go`, detector part).

Modelling conventions:
* Go `float64` quantities (amounts, scores, thresholds, coordinates) are
  embedded as rationals `ℚ`; every IEEE-754 double is a rational, and the
  scoring pipeline uses only field operations and comparisons.
* Instants (`time.Time`) and durations (`time.Duration`) are rationals
  measured in hours since the epoch, so Go's `timeDiff.Hours()` is plain
  subtraction.  All the `time.Now()` calls inside one `Analyze` call are
  modelled by a single parameter `now`.
* `tx.Timestamp.Hour()` is modelled by `hourOf`: the integer hour of day
  (UTC) of a rational hours-since-epoch timestamp.
* The per-account maps of the velocity tracker and geo analyzer become
  total functions from account ids (with `[]` / `none` for absent keys);
  mutation becomes explicit state passing, and `Analyze` returns the
  updated `Detector` state together with the result.
* `GeoAnalyzer.CalculateDistance` is real-valued (haversine, defined
  below over `ℝ` for its own claims).  So that the pipeline stays
  executable, `Analyze` takes the distance function used by the geo stage
  as an explicit parameter `dist : Location → Location → ℚ`; pipeline
  theorems hold uniformly in `dist`.
* `fmt.Sprintf` verbs: `%d` is `toString`; `%.0f` is modelled by
  `fmtF0` (round to integer, then print).  No claim inspects the rounded
  digits.
-/

namespace FraudProof

/-- engine.go (detector part): `Location`, geographical coordinates. -/
structure Location where
  latitude : ℚ
  longitude : ℚ
  country : String
  city : String
deriving DecidableEq

/-- fraud_detector.go:12-23: `Transaction`.  `Type` is `typ` (Lean keyword). -/
structure Transaction where
  id : String
  accountID : String
  amount : ℚ
  currency : String
  merchantID : String
  location : Location
  timestamp : ℚ
  typ : String
  deviceID : String
  ipAddress : String
deriving DecidableEq

/-- Hour of day (UTC) of a rational hours-since-epoch instant; models
`time.Time.Hour()`. -/
def hourOf (t : ℚ) : ℤ := ⌊t⌋ % 24

/-- fraud_detector.go:34-41: `FraudScore`. -/
structure FraudScore where
  score : ℚ
  risk : String
  reasons : List String
  confidence : ℚ
  shouldBlock : Bool
  timestamp : ℚ
deriving DecidableEq

/-- fraud_detector.go:55-62: `Rule`. -/
structure Rule where
  id : String
  name : String
  description : String
  condition : Transaction → Bool
  score : ℚ
  action : String

/-- engine.go (detector part): `Pattern`. -/
structure Pattern where
  name : String
  description : String
  matcher : Transaction → Bool
  score : ℚ

/-- fraud_detector.go:65-71: `Config`.  `MaxVelocity` is a Go `int`. -/
structure Config where
  maxVelocity : ℤ
  velocityWindow : ℚ
  highRiskThreshold : ℚ
  blockThreshold : ℚ
  mlEnabled : Bool

/-- State of `VelocityTracker.accounts`: per-account recorded timestamps
(absent account = `[]`). -/
def VelocityState : Type := String → List ℚ

/-- State of `GeoAnalyzer.lastLocations`: per-account last location and
observation time (absent account = `none`). -/
def GeoState : Type := String → Option (Location × ℚ)

/-- engine.go:135-160 (detector part): `VelocityTracker.Track`.  Prunes the
account's timestamps to those strictly after `now - window`, then appends
`tx.Timestamp`. -/
def Track (v : VelocityState) (window now : ℚ) (tx : Transaction) : VelocityState :=
  fun a =>
    if a = tx.accountID then
      ((v tx.accountID).filter (fun t => decide (now - window < t))) ++ [tx.timestamp]
    else v a

/-- engine.go:162-182 (detector part): `VelocityTracker.GetCount`.  Counts the
account's timestamps strictly after `now - window`. -/
def GetCount (v : VelocityState) (window now : ℚ) (accountID : String) : ℕ :=
  ((v accountID).filter (fun t => decide (now - window < t))).length

/-- engine.go:201-209 (detector part): `GeoAnalyzer.GetLastLocation`. -/
def GetLastLocation (g : GeoState) (accountID : String) : Option Location :=
  (g accountID).map Prod.fst

/-- engine.go:211-219 (detector part): `GeoAnalyzer.GetLastTime`; the zero
instant for an unseen account. -/
def GetLastTime (g : GeoState) (accountID : String) : ℚ :=
  match g accountID with
  | some d => d.2
  | none => 0

/-- engine.go:221-229 (detector part): `GeoAnalyzer.UpdateLocation`;
overwrites the account's record with the location and the current time. -/
def UpdateLocation (g : GeoState) (accountID : String) (loc : Location) (now : ℚ) : GeoState :=
  fun a => if a = accountID then some (loc, now) else g a

/-- Models `fmt.Sprintf("%.0f", x)`: round to the nearest integer, print. -/
def fmtF0 (q : ℚ) : String := toString (round q)

/-- engine.go:291-324 (detector part): `SimpleMLModel.Predict`. -/
def SimpleMLModelPredict (tx : Transaction) : ℚ × ℚ :=
  let score0 : ℚ := 0
  let score1 := if tx.amount > 10000 then score0 + 0.2 else score0
  let score2 := if tx.amount > 50000 then score1 + 0.3 else score1
  let hour := hourOf tx.timestamp
  let score3 := if 2 ≤ hour ∧ hour ≤ 5 then score2 + 0.1 else score2
  let score4 := if tx.typ = "WIRE_TRANSFER" then score3 + 0.15 else score3
  let confidence0 : ℚ := 0.85
  let confidence1 := if tx.deviceID = "" then confidence0 - 0.1 else confidence0
  let confidence2 := if tx.ipAddress = "" then confidence1 - 0.1 else confidence1
  (min 1 score4, confidence2)

/-- engine.go:327-362 (detector part): `DefaultRules`. -/
def DefaultRules : List Rule :=
  [ { id := "HIGH_AMOUNT", name := "High Amount Detection",
      description := "Transaction amount exceeds threshold",
      condition := fun tx => decide (tx.amount > 10000),
      score := 0.3, action := "REVIEW" },
    { id := "UNUSUAL_TIME", name := "Unusual Time Detection",
      description := "Transaction at unusual hours",
      condition := fun tx => decide (2 ≤ hourOf tx.timestamp ∧ hourOf tx.timestamp ≤ 5),
      score := 0.2, action := "FLAG" },
    { id := "NEW_MERCHANT", name := "New Merchant Detection",
      description := "First transaction with merchant",
      condition := fun tx => decide (tx.merchantID = "NEW"),
      score := 0.1, action := "MONITOR" } ]

/-- engine.go:365-385 (detector part): `DefaultPatterns`. -/
def DefaultPatterns : List Pattern :=
  [ { name := "RAPID_FIRE",
      description := "Multiple transactions in rapid succession",
      matcher := fun _ => false, score := 0.4 },
    { name := "ROUND_AMOUNT",
      description := "Suspicious round amount",
      matcher := fun tx => decide (tx.amount = (⌊tx.amount⌋ : ℚ) ∧ tx.amount > 1000),
      score := 0.1 } ]

/-- fraud_detector.go:44-52: `Detector` (the lock is concurrency plumbing and
has no sequential content; `mlModel` is the `MLModel` interface, i.e. its
`Predict` function). -/
structure Detector where
  rules : List Rule
  velocity : VelocityState
  geo : GeoState
  patterns : List Pattern
  mlModel : Transaction → ℚ × ℚ
  config : Config

/-- fraud_detector.go:74-83: `NewDetector`. -/
def NewDetector (config : Config) : Detector :=
  { rules := DefaultRules,
    velocity := fun _ => [],
    geo := fun _ => none,
    patterns := DefaultPatterns,
    mlModel := SimpleMLModelPredict,
    config := config }

/-- fraud_detector.go:138-153: `Detector.applyRules` (also the shape of
`PatternMatcher.Match`): fold over the collection, summing weights and
collecting descriptions of firing entries, in order. -/
def applyRules (rules : List Rule) (tx : Transaction) : ℚ × List String :=
  rules.foldl
    (fun acc rule =>
      if rule.condition tx then (acc.1 + rule.score, acc.2 ++ [rule.description]) else acc)
    (0, [])

/-- engine.go:265-277 (detector part): `PatternMatcher.Match`. -/
def Match (patterns : List Pattern) (tx : Transaction) : ℚ × List String :=
  patterns.foldl
    (fun acc pat =>
      if pat.matcher tx then (acc.1 + pat.score, acc.2 ++ [pat.description]) else acc)
    (0, [])

/-- The velocity count read back by `checkVelocity`: the account's count
after the current transaction has been tracked (fraud_detector.go:157-160). -/
def velocityCount (d : Detector) (now : ℚ) (tx : Transaction) : ℕ :=
  GetCount (Track d.velocity d.config.velocityWindow now tx)
    d.config.velocityWindow now tx.accountID

/-- fraud_detector.go:155-167: `Detector.checkVelocity`.  Tracks the
transaction first, then reads the count; returns the (penalty, reason) pair
and the updated velocity state. -/
def checkVelocity (d : Detector) (now : ℚ) (tx : Transaction) :
    (ℚ × String) × VelocityState :=
  let tracked := Track d.velocity d.config.velocityWindow now tx
  let count := GetCount tracked d.config.velocityWindow now tx.accountID
  if (count : ℤ) > d.config.maxVelocity then
    ((0.3, "High transaction velocity: " ++ toString count ++ " transactions in window"),
     tracked)
  else ((0, ""), tracked)

/-- fraud_detector.go:169-187: `Detector.analyzeGeography`.  Note: in the
impossible-travel branch the source returns early, so the stored location is
NOT updated there. -/
def analyzeGeography (dist : Location → Location → ℚ) (g : GeoState) (now : ℚ)
    (tx : Transaction) : (ℚ × String) × GeoState :=
  match GetLastLocation g tx.accountID with
  | none => ((0, ""), UpdateLocation g tx.accountID tx.location now)
  | some lastLocation =>
    let distance := dist lastLocation tx.location
    let timeDiff := now - GetLastTime g tx.accountID
    let maxPossibleDistance := timeDiff * 900
    if distance > maxPossibleDistance then
      ((0.5, "Impossible travel detected: " ++ fmtF0 distance ++ " km in "
              ++ fmtF0 timeDiff ++ " hours"), g)
    else ((0, ""), UpdateLocation g tx.accountID tx.location now)

/-- fraud_detector.go:193-206: `Detector.determineRiskLevel`. -/
def determineRiskLevel (score : ℚ) : String :=
  if score ≥ 0.8 then "CRITICAL"
  else if score ≥ 0.6 then "HIGH"
  else if score ≥ 0.4 then "MEDIUM"
  else if score ≥ 0.2 then "LOW"
  else "MINIMAL"

/-- fraud_detector.go:91-135: the body of `Analyze` on a non-nil transaction:
rules, velocity, geography, patterns, optional predictive blend, clamp,
classification.  Returns the result and the updated detector state. -/
def analyzeTx (dist : Location → Location → ℚ) (d : Detector) (now : ℚ)
    (tx : Transaction) : FraudScore × Detector :=
  let ruleRes := applyRules d.rules tx
  let score1 := ruleRes.1
  let reasons1 := ruleRes.2
  let vel := checkVelocity d now tx
  let score2 := if vel.1.1 > 0 then score1 + vel.1.1 else score1
  let reasons2 := if vel.1.1 > 0 then reasons1 ++ [vel.1.2] else reasons1
  let geoRes := analyzeGeography dist d.geo now tx
  let score3 := if geoRes.1.1 > 0 then score2 + geoRes.1.1 else score2
  let reasons3 := if geoRes.1.1 > 0 then reasons2 ++ [geoRes.1.2] else reasons2
  let patRes := Match d.patterns tx
  let score4 := score3 + patRes.1
  let reasons4 := reasons3 ++ patRes.2
  let blended :=
    if d.config.mlEnabled then ((score4 + (d.mlModel tx).1) / 2, (d.mlModel tx).2)
    else (score4, 0)
  let finalScore := min 1 (max 0 blended.1)
  ({ score := finalScore,
     risk := determineRiskLevel finalScore,
     reasons := reasons4,
     confidence := blended.2,
     shouldBlock := decide (finalScore ≥ d.config.blockThreshold),
     timestamp := now },
   { d with velocity := vel.2, geo := geoRes.2 })

/-- fraud_detector.go:86-136: `Detector.Analyze`; a nil transaction (modelled
as `none`) fails with a descriptive error and the state is untouched. -/
def Analyze (dist : Location → Location → ℚ) (d : Detector) (now : ℚ)
    (otx : Option Transaction) : Except String FraudScore × Detector :=
  match otx with
  | none => (Except.error "transaction is nil", d)
  | some tx =>
    let r := analyzeTx dist d now tx
    (Except.ok r.1, r.2)

/-- fraud_detector.go:209-213: `Detector.AddRule`. -/
def AddRule (d : Detector) (rule : Rule) : Detector :=
  { d with rules := d.rules ++ [rule] }

/-- fraud_detector.go:220-225's loop: remove the first rule whose `ID`
matches, `none` when no rule matches. -/
def removeFirstRule : List Rule → String → Option (List Rule)
  | [], _ => none
  | r :: rs, ruleID =>
    if r.id = ruleID then some rs
    else (removeFirstRule rs ruleID).map (fun l => r :: l)

/-- fraud_detector.go:216-227: `Detector.RemoveRule`; returns the Go error
value and the (possibly) updated detector. -/
def RemoveRule (d : Detector) (ruleID : String) : Except String Unit × Detector :=
  match removeFirstRule d.rules ruleID with
  | some rs => (Except.ok (), { d with rules := rs })
  | none => (Except.error ("rule not found: " ++ ruleID), d)

/-- The running score accumulated by `Analyze` before the predictive blend:
rule weights, velocity penalty, geo penalty and pattern weights
(fraud_detector.go:97-119; the two `if ... > 0` guards are no-ops on the sum
because the guarded contributions are `0` when not positive). -/
def preScore (dist : Location → Location → ℚ) (d : Detector) (now : ℚ)
    (tx : Transaction) : ℚ :=
  (applyRules d.rules tx).1 + (checkVelocity d now tx).1.1
    + (analyzeGeography dist d.geo now tx).1.1 + (Match d.patterns tx).1

/-- Severity index of the five ordered risk tiers of
fraud_detector.go:193-206, for stating monotonicity. -/
def riskRank (r : String) : ℕ :=
  if r = "CRITICAL" then 4
  else if r = "HIGH" then 3
  else if r = "MEDIUM" then 2
  else if r = "LOW" then 1
  else 0

/-! Concrete fixtures used by witnesses and counterexamples. -/

/-- A sample location (New York-like). -/
def locA : Location := { latitude := 40, longitude := -74, country := "USA", city := "New York" }

/-- A second, distinct sample location (London-like). -/
def locB : Location := { latitude := 51, longitude := 0, country := "UK", city := "London" }

/-- A sample distance oracle: every pair of locations is 1 km apart. -/
def dist0 : Location → Location → ℚ := fun _ _ => 1

/-- Sample configuration, predictive scoring disabled. -/
def cfg0 : Config :=
  { maxVelocity := 5, velocityWindow := 1, highRiskThreshold := 0.6,
    blockThreshold := 0.8, mlEnabled := false }

/-- Sample configuration with a zero velocity maximum (every transaction
exceeds it). -/
def cfgVel : Config :=
  { maxVelocity := 0, velocityWindow := 1, highRiskThreshold := 0.6,
    blockThreshold := 0.8, mlEnabled := false }

/-- Sample configuration with predictive scoring enabled. -/
def cfgML : Config :=
  { maxVelocity := 5, velocityWindow := 1, highRiskThreshold := 0.6,
    blockThreshold := 0.8, mlEnabled := true }

/-- A bland sample transaction: fires no default rule and no pattern. -/
def tx0 : Transaction :=
  { id := "T1", accountID := "ACC", amount := 500.5, currency := "USD",
    merchantID := "M1", location := locB, timestamp := 14, typ := "PURCHASE",
    deviceID := "D1", ipAddress := "IP1" }

/-- The sample transaction with a stale timestamp (older than any positive
window when read at `now = 10`). -/
def txStale : Transaction := { tx0 with timestamp := 0 }

/-- Fresh detector whose geo analyzer has already recorded `locA` for
account `"ACC"` at time `0`. -/
def d0 : Detector :=
  { NewDetector cfg0 with geo := UpdateLocation (fun _ => none) "ACC" locA 0 }

/-- Fresh detector with the zero-velocity-maximum configuration. -/
def dVel : Detector := NewDetector cfgVel

/-- Fresh detector with predictive scoring enabled. -/
def dML : Detector := NewDetector cfgML

/-- A sample rule that never fires. -/
def rule1 : Rule :=
  { id := "RULE1", name := "Rule 1", description := "first sample rule",
    condition := fun _ => false, score := 0.1, action := "" }

/-- A second sample rule that never fires. -/
def rule2 : Rule :=
  { id := "RULE2", name := "Rule 2", description := "second sample rule",
    condition := fun _ => false, score := 0.2, action := "" }

/-- Detector holding exactly the two sample rules. -/
def dRules : Detector := { NewDetector cfg0 with rules := [rule1, rule2] }

/-- Go's `math.Atan2` restricted to its non-NaN, finite branches. -/
noncomputable def atan2 (y x : ℝ) : ℝ :=
  if 0 < x then Real.arctan (y / x)
  else if x < 0 ∧ 0 ≤ y then Real.arctan (y / x) + Real.pi
  else if x < 0 ∧ y < 0 then Real.arctan (y / x) - Real.pi
  else if x = 0 ∧ 0 < y then Real.pi / 2
  else if x = 0 ∧ y < 0 then -(Real.pi / 2)
  else 0

/-- engine.go:232: the Earth radius constant (km). -/
def earthRadius : ℝ := 6371

/-- engine.go:234-241 (detector part): the intermediate `a` of
`GeoAnalyzer.CalculateDistance` (haversine formula). -/
noncomputable def haversineA (loc1 loc2 : Location) : ℝ :=
  let lat1Rad := (loc1.latitude : ℝ) * Real.pi / 180
  let lat2Rad := (loc2.latitude : ℝ) * Real.pi / 180
  let deltaLat := ((loc2.latitude : ℝ) - (loc1.latitude : ℝ)) * Real.pi / 180
  let deltaLon := ((loc2.longitude : ℝ) - (loc1.longitude : ℝ)) * Real.pi / 180
  Real.sin (deltaLat / 2) * Real.sin (deltaLat / 2) +
    Real.cos lat1Rad * Real.cos lat2Rad *
      Real.sin (deltaLon / 2) * Real.sin (deltaLon / 2)

/-- engine.go:231-245 (detector part): `GeoAnalyzer.CalculateDistance`, the
haversine great-circle distance with Earth radius 6371 km, over `ℝ`. -/
noncomputable def CalculateDistance (loc1 loc2 : Location) : ℝ :=
  let a := haversineA loc1 loc2
  let c := 2 * atan2 (Real.sqrt a) (Real.sqrt (1 - a))
  earthRadius * c

/-! Helper lemmas about the embedded operations. -/

theorem checkVelocity_fst (d : Detector) (now : ℚ) (tx : Transaction) :
    (checkVelocity d now tx).1 =
      if (velocityCount d now tx : ℤ) > d.config.maxVelocity then
        (0.3, "High transaction velocity: " ++ toString (velocityCount d now tx)
          ++ " transactions in window")
      else (0, "") := by
  simp only [checkVelocity, velocityCount]
  split <;> rfl

theorem checkVelocity_snd (d : Detector) (now : ℚ) (tx : Transaction) :
    (checkVelocity d now tx).2 = Track d.velocity d.config.velocityWindow now tx := by
  simp only [checkVelocity]
  split <;> rfl

theorem checkVelocity_penalty_or (d : Detector) (now : ℚ) (tx : Transaction) :
    (checkVelocity d now tx).1.1 = 0.3 ∨ (checkVelocity d now tx).1.1 = 0 := by
  rw [checkVelocity_fst]
  split
  · exact Or.inl rfl
  · exact Or.inr rfl

theorem analyzeGeography_of_none (dist : Location → Location → ℚ) (g : GeoState)
    (now : ℚ) (tx : Transaction) (h : g tx.accountID = none) :
    analyzeGeography dist g now tx = ((0, ""), UpdateLocation g tx.accountID tx.location now) := by
  simp [analyzeGeography, GetLastLocation, h]

theorem analyzeGeography_of_some (dist : Location → Location → ℚ) (g : GeoState)
    (now : ℚ) (tx : Transaction) (lastLoc : Location) (lastTime : ℚ)
    (h : g tx.accountID = some (lastLoc, lastTime)) :
    analyzeGeography dist g now tx =
      if dist lastLoc tx.location > (now - lastTime) * 900 then
        ((0.5, "Impossible travel detected: " ++ fmtF0 (dist lastLoc tx.location)
            ++ " km in " ++ fmtF0 (now - lastTime) ++ " hours"), g)
      else ((0, ""), UpdateLocation g tx.accountID tx.location now) := by
  simp [analyzeGeography, GetLastLocation, GetLastTime, h]

theorem analyzeGeography_penalty_or (dist : Location → Location → ℚ) (g : GeoState)
    (now : ℚ) (tx : Transaction) :
    (analyzeGeography dist g now tx).1.1 = 0.5 ∨ (analyzeGeography dist g now tx).1.1 = 0 := by
  rcases hg : g tx.accountID with _ | p
  · rw [analyzeGeography_of_none dist g now tx hg]
    exact Or.inr rfl
  · rw [analyzeGeography_of_some dist g now tx p.1 p.2 (by rw [hg])]
    split
    · exact Or.inl rfl
    · exact Or.inr rfl

theorem analyzeTx_risk (dist : Location → Location → ℚ) (d : Detector) (now : ℚ)
    (tx : Transaction) :
    (analyzeTx dist d now tx).1.risk = determineRiskLevel (analyzeTx dist d now tx).1.score := rfl

theorem analyzeTx_shouldBlock (dist : Location → Location → ℚ) (d : Detector) (now : ℚ)
    (tx : Transaction) :
    (analyzeTx dist d now tx).1.shouldBlock =
      decide ((analyzeTx dist d now tx).1.score ≥ d.config.blockThreshold) := rfl

theorem analyzeTx_confidence (dist : Location → Location → ℚ) (d : Detector) (now : ℚ)
    (tx : Transaction) :
    (analyzeTx dist d now tx).1.confidence =
      if d.config.mlEnabled then (d.mlModel tx).2 else 0 := by
  simp only [analyzeTx]
  split <;> rfl

theorem analyzeTx_state (dist : Location → Location → ℚ) (d : Detector) (now : ℚ)
    (tx : Transaction) :
    (analyzeTx dist d now tx).2 =
      { d with velocity := Track d.velocity d.config.velocityWindow now tx,
               geo := (analyzeGeography dist d.geo now tx).2 } := by
  simp only [analyzeTx, checkVelocity_snd]

theorem analyzeTx_score (dist : Location → Location → ℚ) (d : Detector) (now : ℚ)
    (tx : Transaction) :
    (analyzeTx dist d now tx).1.score =
      min 1 (max 0 (if d.config.mlEnabled then
          (preScore dist d now tx + (d.mlModel tx).1) / 2
        else preScore dist d now tx)) := by
  simp only [analyzeTx, preScore]
  rcases checkVelocity_penalty_or d now tx with hv | hv <;>
    rcases analyzeGeography_penalty_or dist d.geo now tx with hg | hg <;>
      rw [hv, hg] <;> norm_num [apply_ite Prod.fst]

theorem analyzeTx_reasons (dist : Location → Location → ℚ) (d : Detector) (now : ℚ)
    (tx : Transaction) :
    (analyzeTx dist d now tx).1.reasons =
      (applyRules d.rules tx).2
        ++ (if (checkVelocity d now tx).1.1 > 0 then [(checkVelocity d now tx).1.2] else [])
        ++ (if (analyzeGeography dist d.geo now tx).1.1 > 0 then
              [(analyzeGeography dist d.geo now tx).1.2] else [])
        ++ (Match d.patterns tx).2 := by
  simp only [analyzeTx]
  rcases checkVelocity_penalty_or d now tx with hv | hv <;>
    rcases analyzeGeography_penalty_or dist d.geo now tx with hg | hg <;>
      rw [hv, hg] <;> norm_num

theorem riskRank_determineRiskLevel (x : ℚ) :
    riskRank (determineRiskLevel x) =
      if x ≥ 0.8 then 4 else if x ≥ 0.6 then 3 else if x ≥ 0.4 then 2
      else if x ≥ 0.2 then 1 else 0 := by
  unfold determineRiskLevel
  split_ifs <;> simp [riskRank]

theorem determineRiskLevel_mono {x y : ℚ} (h : x ≤ y) :
    riskRank (determineRiskLevel x) ≤ riskRank (determineRiskLevel y) := by
  rw [riskRank_determineRiskLevel, riskRank_determineRiskLevel]
  split_ifs <;> linarith

theorem determineRiskLevel_iff (x : ℚ) :
    (determineRiskLevel x = "CRITICAL" ↔ x ≥ 0.8) ∧
    (determineRiskLevel x = "HIGH" ↔ (0.6 ≤ x ∧ x < 0.8)) ∧
    (determineRiskLevel x = "MEDIUM" ↔ (0.4 ≤ x ∧ x < 0.6)) ∧
    (determineRiskLevel x = "LOW" ↔ (0.2 ≤ x ∧ x < 0.4)) ∧
    (determineRiskLevel x = "MINIMAL" ↔ x < 0.2) := by
  unfold determineRiskLevel
  split_ifs with h1 h2 h3 h4 <;>
    refine ⟨?_, ?_, ?_, ?_, ?_⟩ <;>
      first
        | exact iff_of_true rfl (by linarith)
        | exact iff_of_true rfl ⟨by linarith, by linarith⟩
        | exact iff_of_false (by simp) (by intro h5; linarith)

theorem haversineA_self (loc : Location) : haversineA loc loc = 0 := by
  simp [haversineA]

theorem haversineA_comm (loc1 loc2 : Location) :
    haversineA loc1 loc2 = haversineA loc2 loc1 := by
  simp only [haversineA]
  have h1 : ((loc1.latitude : ℝ) - (loc2.latitude : ℝ)) * Real.pi / 180 / 2
      = -(((loc2.latitude : ℝ) - (loc1.latitude : ℝ)) * Real.pi / 180 / 2) := by ring
  have h2 : ((loc1.longitude : ℝ) - (loc2.longitude : ℝ)) * Real.pi / 180 / 2
      = -(((loc2.longitude : ℝ) - (loc1.longitude : ℝ)) * Real.pi / 180 / 2) := by ring
  rw [h1, h2, Real.sin_neg, Real.sin_neg]
  ring

theorem removeFirstRule_eq_none_iff (l : List Rule) (ruleID : String) :
    removeFirstRule l ruleID = none ↔ ∀ r ∈ l, r.id ≠ ruleID := by
  induction l with
  | nil => simp [removeFirstRule]
  | cons r rs ih =>
    simp only [removeFirstRule]
    by_cases h : r.id = ruleID
    · simp [h]
    · simp [h, Option.map_eq_none', ih]

theorem removeFirstRule_append_self (l : List Rule) (rule : Rule) :
    ∃ l', removeFirstRule (l ++ [rule]) rule.id = some l' ∧ l'.length = l.length := by
  induction l with
  | nil => exact ⟨[], by simp [removeFirstRule], rfl⟩
  | cons r rs ih =>
    by_cases h : r.id = rule.id
    · exact ⟨rs ++ [rule], by simp [removeFirstRule, h], by simp⟩
    · obtain ⟨l', hl', hlen⟩ := ih
      exact ⟨r :: l', by simp [removeFirstRule, h, hl'], by simp [hlen]⟩

theorem removeFirstRule_some_decomp (l : List Rule) (ruleID : String) (l' : List Rule)
    (h : removeFirstRule l ruleID = some l') :
    ∃ l1 r0 l2, l = l1 ++ r0 :: l2 ∧ r0.id = ruleID ∧
      (∀ r ∈ l1, r.id ≠ ruleID) ∧ l' = l1 ++ l2 := by
  induction l generalizing l' with
  | nil => simp [removeFirstRule] at h
  | cons r rs ih =>
    simp only [removeFirstRule] at h
    by_cases hr : r.id = ruleID
    · rw [if_pos hr] at h
      obtain rfl : rs = l' := by injection h
      exact ⟨[], r, rs, by simp, hr, by simp, by simp⟩
    · rw [if_neg hr] at h
      rcases hmap : removeFirstRule rs ruleID with _ | l''
      · rw [hmap] at h; simp at h
      · rw [hmap] at h
        obtain rfl : r :: l'' = l' := by injection h
        obtain ⟨l1, r0, l2, heq, hid, hl1, rfl⟩ := ih l'' hmap
        exact ⟨r :: l1, r0, l2, by simp [heq], hid,
          by simpa [List.forall_mem_cons] using ⟨hr, hl1⟩, by simp⟩

theorem removeFirstRule_isSome_of_mem (l : List Rule) (ruleID : String)
    (h : ∃ r ∈ l, r.id = ruleID) : ∃ l', removeFirstRule l ruleID = some l' := by
  rcases hr : removeFirstRule l ruleID with _ | l'
  · rw [removeFirstRule_eq_none_iff] at hr
    obtain ⟨r, hmem, hid⟩ := h
    exact absurd hid (hr r hmem)
  · exact ⟨l', rfl⟩

theorem removeFirstRule_of_nodup (l : List Rule) (ruleID : String) (l' : List Rule)
    (hnd : (l.map Rule.id).Nodup) (h : removeFirstRule l ruleID = some l') :
    ∀ r ∈ l', r.id ≠ ruleID := by
  obtain ⟨l1, r0, l2, heq, hid, hl1, rfl⟩ := removeFirstRule_some_decomp l ruleID l' h
  subst heq
  intro r hmem
  rcases List.mem_append.mp hmem with h1 | h2
  · exact hl1 r h1
  · have hsub : (r0.id :: l2.map Rule.id).Sublist (l1.map Rule.id ++ r0.id :: l2.map Rule.id) :=
      List.sublist_append_right _ _
    have : (r0.id :: l2.map Rule.id).Nodup := by
      refine List.Nodup.sublist hsub ?_
      simpa using hnd
    have hnotmem : r0.id ∉ l2.map Rule.id := (List.nodup_cons.mp this).1
    intro hcontra
    exact hnotmem (hid ▸ hcontra ▸ List.mem_map_of_mem Rule.id h2)

theorem velocityCount_decomp (d : Detector) (now : ℚ) (tx : Transaction) :
    velocityCount d now tx =
      ((d.velocity tx.accountID).filter
          (fun t => decide (now - d.config.velocityWindow < t))).length
        + (if now - d.config.velocityWindow < tx.timestamp then 1 else 0) := by
  simp [velocityCount, GetCount, Track, List.filter_append, List.filter_filter,
    List.filter_singleton, apply_ite List.length, decide_eq_true_eq, Bool.cond_decide]

/-! Claim theorems. -/

/-- C1, amended: for every non-nil transaction whose account already has a
recorded last location, the geography stage of `Analyze` updates the stored
location to the transaction's location exactly when the impossible-travel
penalty did not fire; when the 0.5 penalty fires, the stage returns early and
the stored location stays the previous one. -/
theorem c1_geo_location_update (dist : Location → Location → ℚ) (d : Detector)
    (now : ℚ) (tx : Transaction) (lastLoc : Location) (lastTime : ℚ)
    (h : d.geo tx.accountID = some (lastLoc, lastTime)) :
    (dist lastLoc tx.location > (now - lastTime) * 900 →
      (analyzeGeography dist d.geo now tx).1.1 = 0.5 ∧
      GetLastLocation (analyzeTx dist d now tx).2.geo tx.accountID = some lastLoc) ∧
    (¬ dist lastLoc tx.location > (now - lastTime) * 900 →
      (analyzeGeography dist d.geo now tx).1.1 = 0 ∧
      GetLastLocation (analyzeTx dist d now tx).2.geo tx.accountID = some tx.location) := by
  have hg := analyzeGeography_of_some dist d.geo now tx lastLoc lastTime h
  constructor
  · intro hc
    rw [if_pos hc] at hg
    refine ⟨by rw [hg], ?_⟩
    rw [analyzeTx_state]
    simp only [hg]
    simp [GetLastLocation, h]
  · intro hc
    rw [if_neg hc] at hg
    refine ⟨by rw [hg], ?_⟩
    rw [analyzeTx_state]
    simp only [hg]
    simp [GetLastLocation, UpdateLocation]

/-- C1 counterexample: a concrete run in which the impossible-travel penalty
fires (0.5 penalty, travel reason emitted, final score 0.5), yet after
`Analyze` the stored last location for the account is still the OLD location,
not the transaction's location — refuting "the stored last location is updated
to the transaction's location regardless of whether the penalty fired". -/
theorem c1_counterexample :
    (analyzeTx dist0 d0 0 tx0).1.reasons = ["Impossible travel detected: 1 km in 0 hours"] ∧
    (analyzeTx dist0 d0 0 tx0).1.score = 0.5 ∧
    GetLastLocation (analyzeTx dist0 d0 0 tx0).2.geo tx0.accountID = some locA ∧
    locA ≠ tx0.location := by
  have hgeo : d0.geo tx0.accountID = some (locA, 0) := by
    simp [d0, NewDetector, UpdateLocation, tx0]
  have hcond : dist0 locA tx0.location > ((0 : ℚ) - 0) * 900 := by norm_num [dist0]
  have hg := analyzeGeography_of_some dist0 d0.geo 0 tx0 locA 0 hgeo
  rw [if_pos hcond] at hg
  have hrules : applyRules d0.rules tx0 = (0, []) := by
    norm_num [applyRules, DefaultRules, d0, NewDetector, tx0, hourOf]
    simp
  have hvc : velocityCount d0 0 tx0 = 1 := by
    rw [velocityCount_decomp]
    norm_num [d0, NewDetector, cfg0, tx0]
  have hvel : (checkVelocity d0 0 tx0).1 = (0, "") := by
    rw [checkVelocity_fst, hvc]
    norm_num [d0, NewDetector, cfg0]
  have hpat : Match d0.patterns tx0 = (0, []) := by
    norm_num [Match, DefaultPatterns, d0, NewDetector, tx0]
  have hml : d0.config.mlEnabled = false := rfl
  refine ⟨?_, ?_, ?_, ?_⟩
  · rw [analyzeTx_reasons, hrules, hvel, hg, hpat]
    norm_num [fmtF0, dist0]
    rfl
  · rw [analyzeTx_score, hml]
    simp only [if_false, Bool.false_eq_true]
    rw [preScore, hrules, hvel, hg, hpat]
    norm_num [min_def, max_def]
  · rw [analyzeTx_state]
    simp only [hg]
    simp [GetLastLocation, hgeo]
  · simp [locA, tx0, locB]

/-- C1 witness: the amended theorem applied at a concrete input where the
penalty fires (so the stored location stays the old one). -/
theorem c1_witness :
    (analyzeGeography dist0 d0.geo 0 tx0).1.1 = 0.5 ∧
    GetLastLocation (analyzeTx dist0 d0 0 tx0).2.geo tx0.accountID = some locA :=
  (c1_geo_location_update dist0 d0 0 tx0 locA 0
      (by simp [d0, NewDetector, UpdateLocation, tx0])).1
    (by norm_num [dist0])

/-- C2, amended: the velocity stage records the transaction with `Track` and
only then reads the count (`checkVelocity`'s state is the tracked state and
its count is the count of the tracked state), and the count read back includes
the current transaction exactly when the transaction's timestamp lies within
the velocity window at the read (`now - window < tx.timestamp`); a
currently-stamped transaction therefore counts toward its own check, but a
transaction bearing a timestamp older than the window is tracked yet not
counted. -/
theorem c2_velocity_track_then_count (d : Detector) (now : ℚ) (tx : Transaction) :
    (checkVelocity d now tx).2 = Track d.velocity d.config.velocityWindow now tx ∧
    velocityCount d now tx =
      GetCount (Track d.velocity d.config.velocityWindow now tx)
        d.config.velocityWindow now tx.accountID ∧
    velocityCount d now tx =
      ((d.velocity tx.accountID).filter
          (fun t => decide (now - d.config.velocityWindow < t))).length
        + (if now - d.config.velocityWindow < tx.timestamp then 1 else 0) :=
  ⟨checkVelocity_snd d now tx, rfl, velocityCount_decomp d now tx⟩

/-- C2 counterexample: a transaction whose caller-supplied timestamp is older
than the velocity window is recorded by `Track`, yet the count read back is 0
— the current transaction does NOT count toward its own velocity check,
refuting the unconditional "the count read back includes the current
transaction itself". -/
theorem c2_counterexample :
    Track (NewDetector cfg0).velocity cfg0.velocityWindow 10 txStale txStale.accountID
      = [txStale.timestamp] ∧
    velocityCount (NewDetector cfg0) 10 txStale = 0 := by
  constructor
  · simp [Track, NewDetector, cfg0, txStale, tx0]
  · rw [velocityCount_decomp]
    norm_num [NewDetector, cfg0, txStale, tx0]

/-- C3: when predictive scoring is enabled, `Analyze` replaces the running
score with the arithmetic average of the running score and the model's score
(then clamps), and records the model's confidence in the result; when it is
disabled, the clamped running score is used and the confidence is left at its
zero value. -/
theorem c3_ml_average_and_confidence (dist : Location → Location → ℚ)
    (d : Detector) (now : ℚ) (tx : Transaction) :
    (d.config.mlEnabled = true →
      (analyzeTx dist d now tx).1.score =
        min 1 (max 0 ((preScore dist d now tx + (d.mlModel tx).1) / 2)) ∧
      (analyzeTx dist d now tx).1.confidence = (d.mlModel tx).2) ∧
    (d.config.mlEnabled = false →
      (analyzeTx dist d now tx).1.score = min 1 (max 0 (preScore dist d now tx)) ∧
      (analyzeTx dist d now tx).1.confidence = 0) := by
  constructor <;> intro h <;>
    rw [analyzeTx_score, analyzeTx_confidence, h] <;> simp

/-- C3 witness: the theorem applied with predictive scoring enabled, and
(separately) disabled. -/
theorem c3_witness :
    ((analyzeTx dist0 dML 0 tx0).1.score =
        min 1 (max 0 ((preScore dist0 dML 0 tx0 + (dML.mlModel tx0).1) / 2)) ∧
      (analyzeTx dist0 dML 0 tx0).1.confidence = (dML.mlModel tx0).2) ∧
    ((analyzeTx dist0 d0 0 tx0).1.score = min 1 (max 0 (preScore dist0 d0 0 tx0)) ∧
      (analyzeTx dist0 d0 0 tx0).1.confidence = 0) :=
  ⟨(c3_ml_average_and_confidence dist0 dML 0 tx0).1 rfl,
   (c3_ml_average_and_confidence dist0 d0 0 tx0).2 rfl⟩

/-- C4: for every transaction, distance oracle, detector state and
configuration, the Score field of the result of `Analyze` lies in [0, 1] —
the final clamp bounds the aggregate no matter how many rule weights and
penalties accumulated. -/
theorem c4_score_clamped (dist : Location → Location → ℚ) (d : Detector)
    (now : ℚ) (tx : Transaction) :
    0 ≤ (analyzeTx dist d now tx).1.score ∧ (analyzeTx dist d now tx).1.score ≤ 1 := by
  rw [analyzeTx_score]
  exact ⟨le_min (by norm_num) (le_max_left 0 _), min_le_left 1 _⟩

/-- C5: in every `Analyze` call, if the velocity count for the account (read
after tracking the current transaction) exceeds the configured maximum, a
fixed 0.3 penalty is returned by the velocity stage, contributes to the
running score, and a reason string containing the observed count is appended
to the result's reasons; otherwise the stage returns (0, "") and no velocity
reason appears. -/
theorem c5_velocity_penalty (dist : Location → Location → ℚ) (d : Detector)
    (now : ℚ) (tx : Transaction) :
    ((velocityCount d now tx : ℤ) > d.config.maxVelocity →
      (checkVelocity d now tx).1 =
        (0.3, "High transaction velocity: " ++ toString (velocityCount d now tx)
          ++ " transactions in window") ∧
      (analyzeTx dist d now tx).1.reasons =
        (applyRules d.rules tx).2
          ++ ["High transaction velocity: " ++ toString (velocityCount d now tx)
              ++ " transactions in window"]
          ++ (if (analyzeGeography dist d.geo now tx).1.1 > 0 then
                [(analyzeGeography dist d.geo now tx).1.2] else [])
          ++ (Match d.patterns tx).2) ∧
    ((velocityCount d now tx : ℤ) ≤ d.config.maxVelocity →
      (checkVelocity d now tx).1 = (0, "") ∧
      (analyzeTx dist d now tx).1.reasons =
        (applyRules d.rules tx).2
          ++ (if (analyzeGeography dist d.geo now tx).1.1 > 0 then
                [(analyzeGeography dist d.geo now tx).1.2] else [])
          ++ (Match d.patterns tx).2) ∧
    preScore dist d now tx =
      (applyRules d.rules tx).1
        + (if (velocityCount d now tx : ℤ) > d.config.maxVelocity then 0.3 else 0)
        + (analyzeGeography dist d.geo now tx).1.1 + (Match d.patterns tx).1 := by
  have hcv := checkVelocity_fst d now tx
  refine ⟨fun h => ?_, fun h => ?_, ?_⟩
  · rw [if_pos h] at hcv
    refine ⟨hcv, ?_⟩
    rw [analyzeTx_reasons, hcv]
    norm_num
  · rw [if_neg (not_lt.mpr h)] at hcv
    refine ⟨hcv, ?_⟩
    rw [analyzeTx_reasons, hcv]
    norm_num
  · by_cases h : (velocityCount d now tx : ℤ) > d.config.maxVelocity
    · rw [if_pos h] at hcv ⊢
      rw [preScore, hcv]
    · rw [if_neg h] at hcv ⊢
      rw [preScore, hcv]

/-- C5 witness: the theorem applied at a concrete run that exceeds the
maximum velocity (count 1 > max 0) and at one that does not (count 1 ≤ 5). -/
theorem c5_witness :
    ((checkVelocity dVel 14 tx0).1 =
      (0.3, "High transaction velocity: " ++ toString (velocityCount dVel 14 tx0)
        ++ " transactions in window") ∧
      (analyzeTx dist0 dVel 14 tx0).1.reasons =
        (applyRules dVel.rules tx0).2
          ++ ["High transaction velocity: " ++ toString (velocityCount dVel 14 tx0)
              ++ " transactions in window"]
          ++ (if (analyzeGeography dist0 dVel.geo 14 tx0).1.1 > 0 then
                [(analyzeGeography dist0 dVel.geo 14 tx0).1.2] else [])
          ++ (Match dVel.patterns tx0).2) ∧
    ((checkVelocity d0 0 tx0).1 = (0, "") ∧
      (analyzeTx dist0 d0 0 tx0).1.reasons =
        (applyRules d0.rules tx0).2
          ++ (if (analyzeGeography dist0 d0.geo 0 tx0).1.1 > 0 then
                [(analyzeGeography dist0 d0.geo 0 tx0).1.2] else [])
          ++ (Match d0.patterns tx0).2) :=
  ⟨(c5_velocity_penalty dist0 dVel 14 tx0).1
      (by rw [velocityCount_decomp]; norm_num [dVel, NewDetector, cfgVel, tx0]),
   (c5_velocity_penalty dist0 d0 0 tx0).2.1
      (by rw [velocityCount_decomp]; norm_num [d0, NewDetector, cfg0, tx0])⟩

/-- C6: the risk tier returned by `Analyze` is determined from the clamped
score by fixed inclusive-lower-bound thresholds (CRITICAL iff ≥ 0.8, HIGH iff
[0.6, 0.8), MEDIUM iff [0.4, 0.6), LOW iff [0.2, 0.4), MINIMAL iff < 0.2),
the block decision is true exactly when the clamped score is at least the
configured block threshold, and the tier is monotone in the score. -/
theorem c6_risk_tiers (dist : Location → Location → ℚ) (d : Detector)
    (now : ℚ) (tx : Transaction) :
    ((analyzeTx dist d now tx).1.risk = "CRITICAL" ↔
      (analyzeTx dist d now tx).1.score ≥ 0.8) ∧
    ((analyzeTx dist d now tx).1.risk = "HIGH" ↔
      (0.6 ≤ (analyzeTx dist d now tx).1.score ∧ (analyzeTx dist d now tx).1.score < 0.8)) ∧
    ((analyzeTx dist d now tx).1.risk = "MEDIUM" ↔
      (0.4 ≤ (analyzeTx dist d now tx).1.score ∧ (analyzeTx dist d now tx).1.score < 0.6)) ∧
    ((analyzeTx dist d now tx).1.risk = "LOW" ↔
      (0.2 ≤ (analyzeTx dist d now tx).1.score ∧ (analyzeTx dist d now tx).1.score < 0.4)) ∧
    ((analyzeTx dist d now tx).1.risk = "MINIMAL" ↔
      (analyzeTx dist d now tx).1.score < 0.2) ∧
    ((analyzeTx dist d now tx).1.shouldBlock = true ↔
      (analyzeTx dist d now tx).1.score ≥ d.config.blockThreshold) ∧
    (∀ x y : ℚ, x ≤ y →
      riskRank (determineRiskLevel x) ≤ riskRank (determineRiskLevel y)) := by
  have hiff := determineRiskLevel_iff (analyzeTx dist d now tx).1.score
  refine ⟨?_, ?_, ?_, ?_, ?_, ?_, fun x y h => determineRiskLevel_mono h⟩
  · rw [analyzeTx_risk]; exact hiff.1
  · rw [analyzeTx_risk]; exact hiff.2.1
  · rw [analyzeTx_risk]; exact hiff.2.2.1
  · rw [analyzeTx_risk]; exact hiff.2.2.2.1
  · rw [analyzeTx_risk]; exact hiff.2.2.2.2
  · rw [analyzeTx_shouldBlock]; simp [decide_eq_true_eq]

/-- C6 witness: the monotonicity component of the theorem applied at the
concrete scores 0.3 ≤ 0.9. -/
theorem c6_witness :
    riskRank (determineRiskLevel 0.3) ≤ riskRank (determineRiskLevel 0.9) :=
  (c6_risk_tiers dist0 d0 0 tx0).2.2.2.2.2.2 0.3 0.9 (by norm_num)

/-- C7: `RemoveRule` with an identifier matching no rule fails with the
"rule not found" error and leaves the rule collection unchanged; with a
present identifier it succeeds and removes exactly the first matching rule,
preserving the relative order of the rest; under the data-model invariant
that rule identifiers are unique, an immediately repeated `RemoveRule` on the
same identifier fails; and after `AddRule` then `RemoveRule` of that rule's
identifier the rule count equals the count before the add. -/
theorem c7_remove_rule (d : Detector) (ruleID : String) (rule : Rule) :
    ((∀ r ∈ d.rules, r.id ≠ ruleID) →
      RemoveRule d ruleID = (Except.error ("rule not found: " ++ ruleID), d)) ∧
    ((∃ r ∈ d.rules, r.id = ruleID) →
      ∃ l1 r0 l2, d.rules = l1 ++ r0 :: l2 ∧ r0.id = ruleID ∧
        (∀ r' ∈ l1, r'.id ≠ ruleID) ∧
        (RemoveRule d ruleID).1 = Except.ok () ∧
        (RemoveRule d ruleID).2.rules = l1 ++ l2) ∧
    ((d.rules.map Rule.id).Nodup → (RemoveRule d ruleID).1 = Except.ok () →
      (RemoveRule (RemoveRule d ruleID).2 ruleID).1 =
        Except.error ("rule not found: " ++ ruleID)) ∧
    ((RemoveRule (AddRule d rule) rule.id).1 = Except.ok () ∧
      (RemoveRule (AddRule d rule) rule.id).2.rules.length = d.rules.length) := by
  refine ⟨fun h => ?_, fun h => ?_, fun hnd hok => ?_, ?_⟩
  · have hn : removeFirstRule d.rules ruleID = none :=
      (removeFirstRule_eq_none_iff d.rules ruleID).mpr h
    simp [RemoveRule, hn]
  · obtain ⟨l', hl'⟩ := removeFirstRule_isSome_of_mem d.rules ruleID h
    obtain ⟨l1, r0, l2, heq, hid, hl1, hrest⟩ :=
      removeFirstRule_some_decomp d.rules ruleID l' hl'
    exact ⟨l1, r0, l2, heq, hid, hl1, by simp [RemoveRule, hl'],
      by simp [RemoveRule, hl', hrest]⟩
  · rcases hrem : removeFirstRule d.rules ruleID with _ | l'
    · simp [RemoveRule, hrem] at hok
    · have hnone : removeFirstRule l' ruleID = none :=
        (removeFirstRule_eq_none_iff l' ruleID).mpr
          (removeFirstRule_of_nodup d.rules ruleID l' hnd hrem)
      simp [RemoveRule, hrem, hnone]
  · obtain ⟨l', hl', hlen⟩ := removeFirstRule_append_self d.rules rule
    constructor
    · simp [RemoveRule, AddRule, hl']
    · simp [RemoveRule, AddRule, hl', hlen]

/-- C7 witness: the theorem applied to the two-rule detector fixture: removing
an absent identifier fails and leaves the state unchanged, removing "RULE2"
succeeds with the decomposition, and removing "RULE2" again fails. -/
theorem c7_witness :
    (RemoveRule dRules "RULE9" = (Except.error ("rule not found: " ++ "RULE9"), dRules)) ∧
    (∃ l1 r0 l2, dRules.rules = l1 ++ r0 :: l2 ∧ r0.id = "RULE2" ∧
      (∀ r' ∈ l1, r'.id ≠ "RULE2") ∧
      (RemoveRule dRules "RULE2").1 = Except.ok () ∧
      (RemoveRule dRules "RULE2").2.rules = l1 ++ l2) ∧
    (RemoveRule (RemoveRule dRules "RULE2").2 "RULE2").1 =
      Except.error ("rule not found: " ++ "RULE2") :=
  ⟨(c7_remove_rule dRules "RULE9" rule1).1
      (by simp [dRules, NewDetector, rule1, rule2]),
   (c7_remove_rule dRules "RULE2" rule1).2.1
      ⟨rule2, by simp [dRules, NewDetector], rfl⟩,
   (c7_remove_rule dRules "RULE2" rule1).2.2.1
      (by simp [dRules, NewDetector, rule1, rule2])
      (by simp [RemoveRule, removeFirstRule, dRules, NewDetector, rule1, rule2])⟩

/-- C8: `Analyze` fails if and only if the transaction argument is
absent/nil: on a nil transaction it returns the descriptive error
"transaction is nil" and leaves the detector state (velocity and geo maps
included) untouched; on every non-nil transaction it returns a result and no
error. -/
theorem c8_analyze_nil_only (dist : Location → Location → ℚ) (d : Detector) (now : ℚ) :
    (Analyze dist d now none).1 = Except.error "transaction is nil" ∧
    (Analyze dist d now none).2 = d ∧
    ∀ tx : Transaction, ∃ s : FraudScore, (Analyze dist d now (some tx)).1 = Except.ok s :=
  ⟨rfl, rfl, fun tx => ⟨(analyzeTx dist d now tx).1, rfl⟩⟩

/-- C9: `CalculateDistance` — the haversine great-circle distance with Earth
radius 6371 km — is reflexive (distance from any location to itself is 0) and
symmetric (swapping the two locations leaves the distance unchanged). -/
theorem c9_distance_reflexive_symmetric :
    (∀ loc : Location, CalculateDistance loc loc = 0) ∧
    (∀ a b : Location, CalculateDistance a b = CalculateDistance b a) := by
  constructor
  · intro loc
    simp only [CalculateDistance, haversineA_self]
    norm_num [atan2, Real.sqrt_zero, Real.sqrt_one, Real.arctan_zero]
  · intro a b
    simp only [CalculateDistance]
    rw [haversineA_comm]

/-- C10 (implicit): the bundled `SimpleMLModel.Predict` returns a score in
[0, 1] and a confidence equal to 0.85 reduced by 0.1 for a missing device id
and by 0.1 for a missing network address — hence in [0.65, 0.85]; with this
default model and predictive scoring enabled, the confidence reported by
`Analyze` (which is never clamped) therefore lies in [0, 1]. -/
theorem c10_predict_bounds (tx : Transaction) :
    (0 ≤ (SimpleMLModelPredict tx).1 ∧ (SimpleMLModelPredict tx).1 ≤ 1) ∧
    ((SimpleMLModelPredict tx).2 =
      0.85 - (if tx.deviceID = "" then 0.1 else 0)
           - (if tx.ipAddress = "" then 0.1 else 0)) ∧
    (0.65 ≤ (SimpleMLModelPredict tx).2 ∧ (SimpleMLModelPredict tx).2 ≤ 0.85) ∧
    (∀ (dist : Location → Location → ℚ) (d : Detector) (now : ℚ),
      d.mlModel = SimpleMLModelPredict → d.config.mlEnabled = true →
      0 ≤ (analyzeTx dist d now tx).1.confidence ∧
        (analyzeTx dist d now tx).1.confidence ≤ 1) := by
  have hconf : (SimpleMLModelPredict tx).2 =
      0.85 - (if tx.deviceID = "" then 0.1 else 0)
           - (if tx.ipAddress = "" then 0.1 else 0) := by
    simp only [SimpleMLModelPredict]
    split_ifs <;> norm_num
  have hlo : (0.65 : ℚ) ≤ (SimpleMLModelPredict tx).2 := by
    rw [hconf]; split_ifs <;> norm_num
  have hhi : (SimpleMLModelPredict tx).2 ≤ 0.85 := by
    rw [hconf]; split_ifs <;> norm_num
  refine ⟨⟨?_, ?_⟩, hconf, ⟨hlo, hhi⟩, ?_⟩
  · simp only [SimpleMLModelPredict]
    refine le_min (by norm_num) ?_
    split_ifs <;> norm_num
  · simp only [SimpleMLModelPredict]
    exact min_le_left _ _
  · intro dist d now hm he
    rw [analyzeTx_confidence, he, hm]
    constructor
    · simp only [if_true]
      linarith
    · simp only [if_true]
      linarith

/-- C10 witness: the aggregate-confidence component of the theorem applied to
the ML-enabled detector fixture (whose model is the default
`SimpleMLModel`). -/
theorem c10_witness :
    0 ≤ (analyzeTx dist0 dML 0 tx0).1.confidence ∧
      (analyzeTx dist0 dML 0 tx0).1.confidence ≤ 1 :=
  (c10_predict_bounds tx0).2.2.2 dist0 dML 0 rfl rfl

end FraudProof
